import Mathlib

/-!
Verification of the hybrid RAG orchestration script (streamlit-app.py).

The script queries two Bedrock knowledge bases (vector and graph), formats
the scored results, builds a synthesis prompt, invokes a language model and
assembles a structured outcome.  External calls (the Bedrock retrieve API
and the LLM invocation) are modelled as oracle functions returning
`Except String _`, where `.error` models a raised exception.  Python `print`
diagnostics are modelled as a returned log (a `List String`).  Python dict
lookups with defaults (`d.get(k, default)`) are modelled as `Option` fields
read with `Option.getD`.  Float relevance scores are modelled as rationals;
the `"%.3f"`-style rendering is embedded as an explicit fixed-point decimal
printer.
-/

set_option maxRecDepth 100000

namespace HybridRag

/-- One scored snippet: the nested `content` dict (with optional `text`)
and the optional `score` key, as accessed via `result.get(...)` in the source. -/
structure KBContent where
  text : Option String
  deriving DecidableEq, Repr

structure RetrievalResult where
  content : Option KBContent
  score : Option ℚ
  deriving DecidableEq, Repr

/-- The request issued by `bedrock_agent_runtime.retrieve`:
knowledgeBaseId, retrievalQuery text and the vector-search numberOfResults. -/
structure RetrieveRequest where
  knowledgeBaseId : String
  queryText : String
  numberOfResults : Nat
  deriving DecidableEq, Repr

/-- The retrieve API response; `retrievalResults` may be absent
(`response.get('retrievalResults', [])` in the source). -/
structure RetrieveResponse where
  retrievalResults : Option (List RetrievalResult)
  deriving DecidableEq, Repr

/-- The LLM invocation result (`response.content` in the source). -/
structure AIMessage where
  content : String
  deriving DecidableEq, Repr

/-- The dict returned by `hybrid_rag_query`. -/
structure QueryOutcome where
  query : String
  vector_results_count : Nat
  graph_results_count : Nat
  unified_response : String
  raw_vector_results : List RetrievalResult
  raw_graph_results : List RetrievalResult
  deriving DecidableEq, Repr

/-- An external KB retrieval service; `.error e` models a raised exception. -/
abbrev KBService := RetrieveRequest → Except String RetrieveResponse

/-- An external LLM client (`llm.invoke`); `.error e` models a raised exception. -/
abbrev LLMClient := String → Except String AIMessage

def VECTOR_KB_ID : String := "KXZ6KMQQUP"

def GRAPH_KB_ID : String := "9GX3SMFMMH"

/-- Decimal digits of `n`, most significant first, with structural fuel so
that it reduces by kernel computation; `natDecimal` supplies enough fuel. -/
def natDecimalAux : Nat → Nat → List Char
  | 0, _ => []
  | fuel + 1, n =>
    if n < 10 then [Nat.digitChar n]
    else natDecimalAux fuel (n / 10) ++ [Nat.digitChar (n % 10)]

/-- Decimal digits of `n`, most significant first (the rendering of a
nonnegative integer in the f-string interpolations of the source). -/
def natDecimal (n : Nat) : List Char := natDecimalAux (n + 1) n

def natRepr (n : Nat) : String := String.mk (natDecimal n)

/-- `round (x * 1000)`, written on the numerator/denominator representation
so that it evaluates by kernel reduction; `scaled1000_eq_round` below proves
it equal to Mathlib's `round (x * 1000)`. -/
def scaled1000 (x : ℚ) : ℤ :=
  (2000 * x.num + x.den) / (2 * (x.den : ℤ))

/-- The fixed-point rendering `f"{score:.3f}"` of the source, over the
rational model of the float score: round to the nearest thousandth and
print sign, integer part, a dot and exactly three fraction digits. -/
def formatScore3 (x : ℚ) : String :=
  let n : ℤ := scaled1000 x
  let m : Nat := n.natAbs
  (if n < 0 then "-" else "") ++ natRepr (m / 1000) ++ "." ++
    String.mk [Nat.digitChar (m % 1000 / 100), Nat.digitChar (m % 1000 / 10 % 10),
      Nat.digitChar (m % 1000 % 10)]

/-- `result.get('content', {}).get('text', '')` from the source. -/
def resultContentText (r : RetrievalResult) : String :=
  ((r.content.getD ⟨none⟩).text).getD ""

/-- `result.get('score', 0.0)` from the source. -/
def resultScore (r : RetrievalResult) : ℚ :=
  r.score.getD 0

/-- One iteration of the formatting loop:
`f"\n{idx}. (Score: {score:.3f})\n{content}\n"`. -/
def entryString (idx : Nat) (r : RetrievalResult) : String :=
  "\n" ++ natRepr idx ++ ". (Score: " ++ formatScore3 (resultScore r) ++ ")\n" ++
    resultContentText r ++ "\n"

/-- `format_retrieval_results(results, source_type)` from the source: the
fixed no-results sentence on empty input, otherwise a header line followed
by the accumulated numbered entries (`enumerate(results, 1)`). -/
def format_retrieval_results (results : List RetrievalResult) (source_type : String) :
    String :=
  if results.isEmpty then
    "No results found from " ++ source_type ++ " knowledge base."
  else
    (results.enumFrom 1).foldl (fun acc p => acc ++ entryString p.1 p.2)
      ("\n--- " ++ source_type ++ " Knowledge Base Results ---\n")

/-- The request built inside `retrieve_from_kb`: knowledgeBaseId = kb_id,
retrievalQuery text = query, vectorSearchConfiguration numberOfResults = 5. -/
def kbRetrieveRequest (query kb_id : String) : RetrieveRequest :=
  { knowledgeBaseId := kb_id, queryText := query, numberOfResults := 5 }

/-- `retrieve_from_kb(query, kb_id)` from the source: one service call; on
success return `response.get('retrievalResults', [])`, on any exception
print a diagnostic and return `[]`.  The returned `List String` is the log. -/
def retrieve_from_kb (svc : KBService) (query kb_id : String) :
    List RetrievalResult × List String :=
  match svc (kbRetrieveRequest query kb_id) with
  | .ok response => (response.retrievalResults.getD [], [])
  | .error e => ([], ["Error retrieving from KB " ++ kb_id ++ ": " ++ e])

/-- The fixed text of the synthesis prompt preceding the user question. -/
def promptHead : String :=
  "You are an AI assistant tasked with answering questions using information from two different knowledge sources:\n1. A vector-based knowledge base (semantic search results)\n2. A graph-based knowledge base (relationship and entity-focused results)\n\nUser Question: "

/-- The fixed instruction block closing the synthesis prompt. -/
def promptInstructions : String :=
  "Instructions:\n- Synthesize the information from both knowledge bases\n- Provide a comprehensive, coherent answer that combines the best insights from both sources\n- If there are complementary details, integrate them seamlessly\n- If there are contradictions, acknowledge them and provide the most accurate information\n- Cite which source (Vector KB or Graph KB) specific information comes from when relevant\n- Be concise but thorough\n\nProvide your unified answer below:"

/-- The `synthesis_prompt` f-string of `combine_and_generate_response`,
embedding the query and the two formatted context blocks. -/
def synthesis_prompt (query vector_context graph_context : String) : String :=
  promptHead ++ query ++ "\n\n" ++ vector_context ++ "\n\n" ++ graph_context ++
    "\n\n" ++ promptInstructions

/-- `combine_and_generate_response(query, vector_results, graph_results, llm)`
from the source: format both result lists, build the synthesis prompt, invoke
the LLM; on success return `response.content`, on any exception print a
diagnostic and return the fixed fallback string. -/
def combine_and_generate_response (query : String)
    (vector_results graph_results : List RetrievalResult) (llm : LLMClient) :
    String × List String :=
  let vector_context := format_retrieval_results vector_results "Vector"
  let graph_context := format_retrieval_results graph_results "Graph"
  match llm (synthesis_prompt query vector_context graph_context) with
  | .ok response => (response.content, [])
  | .error e => ("Error generating unified response.", ["Error generating response: " ++ e])

/-- `hybrid_rag_query(query_text)` from the source: retrieve from the vector
KB, then the graph KB, synthesize the unified response, and assemble the
outcome dict.  Progress prints are collected in the log component. -/
def hybrid_rag_query (svc : KBService) (llm : LLMClient) (query_text : String) :
    QueryOutcome × List String :=
  let log0 := ["Processing query: " ++ query_text ++ "\n", String.mk (List.replicate 80 '=')]
  let log1 := ["\n1. Retrieving from Vector Knowledge Base..."]
  let vres := retrieve_from_kb svc query_text VECTOR_KB_ID
  let vector_results := vres.1
  let log2 := ["   Retrieved " ++ natRepr vector_results.length ++ " results from Vector KB"]
  let log3 := ["\n2. Retrieving from Graph Knowledge Base..."]
  let gres := retrieve_from_kb svc query_text GRAPH_KB_ID
  let graph_results := gres.1
  let log4 := ["   Retrieved " ++ natRepr graph_results.length ++ " results from Graph KB"]
  let log5 := ["\n3. Synthesizing unified response..."]
  let cres := combine_and_generate_response query_text vector_results graph_results llm
  ( { query := query_text
      vector_results_count := vector_results.length
      graph_results_count := graph_results.length
      unified_response := cres.1
      raw_vector_results := vector_results
      raw_graph_results := graph_results },
    log0 ++ log1 ++ vres.2 ++ log2 ++ log3 ++ gres.2 ++ log4 ++ log5 ++ cres.2 )

/-- The retrieve request as the contract of spec section 4.1 words it:
`retrieve(query, knowledgeBaseId, maxResults = 5)` issues a request whose
numberOfResults is the `maxResults` argument.  Stated for comparison with
`kbRetrieveRequest`, which the source actually builds. -/
def specContractRequest (query kb_id : String) (maxResults : Nat) : RetrieveRequest :=
  { knowledgeBaseId := kb_id, queryText := query, numberOfResults := maxResults }

/-! ### Supporting lemmas -/

/-- The explicit numerator/denominator computation in `scaled1000` agrees with
rounding `x * 1000` to the nearest integer, certifying the embedding of the
`"%.3f"` scaling step. -/
theorem scaled1000_eq_round (x : ℚ) : scaled1000 x = round (x * 1000) := by
  rw [round_eq, scaled1000]
  have hden : (x.den : ℚ) ≠ 0 := Nat.cast_ne_zero.mpr x.den_nz
  have hx : (x.num : ℚ) = x * (x.den : ℚ) := (div_eq_iff hden).mp (Rat.num_div_den x)
  have key : x * 1000 + 1/2 = ((2000 * x.num + x.den : ℤ) : ℚ) / (((2 * x.den : ℕ) : ℚ)) := by
    push_cast
    field_simp
    rw [hx]
    ring
  rw [key, Rat.floor_intCast_div_natCast]
  push_cast
  rfl

theorem isDigit_digitChar {d : Nat} (h : d < 10) : (Nat.digitChar d).isDigit = true := by
  interval_cases d <;> decide

theorem natDecimalAux_digits (fuel : Nat) :
    ∀ n, ∀ c ∈ natDecimalAux fuel n, c.isDigit = true := by
  induction fuel with
  | zero => intro n c hc; simp [natDecimalAux] at hc
  | succ fuel ih =>
    intro n c hc
    rw [natDecimalAux] at hc
    by_cases h : n < 10
    · rw [if_pos h] at hc
      simp only [List.mem_singleton] at hc
      exact hc ▸ isDigit_digitChar h
    · rw [if_neg h] at hc
      rcases List.mem_append.mp hc with h1 | h2
      · exact ih _ c h1
      · simp only [List.mem_singleton] at h2
        exact h2 ▸ isDigit_digitChar (Nat.mod_lt _ (by omega))

theorem natDecimal_digits (n : Nat) : ∀ c ∈ natDecimal n, c.isDigit = true :=
  natDecimalAux_digits (n + 1) n

theorem string_foldl_append (l : List String) (init : String) :
    l.foldl (fun a b => a ++ b) init = init ++ String.join l := by
  induction l generalizing init with
  | nil => simp [String.join]
  | cons s l ih =>
    show l.foldl (fun a b => a ++ b) (init ++ s) = init ++ String.join (s :: l)
    rw [ih]
    have : String.join (s :: l) = s ++ String.join l := by
      show (s :: l).foldl (fun a b => a ++ b) "" = _
      show l.foldl (fun a b => a ++ b) ("" ++ s) = _
      rw [ih, String.empty_append]
    rw [this, String.append_assoc]

theorem foldl_entry_eq_join (f : α → String) (l : List α) (init : String) :
    l.foldl (fun acc p => acc ++ f p) init = init ++ String.join (l.map f) := by
  rw [← string_foldl_append]
  rw [← List.foldl_map]

/-- Splitting a right-associated append around a middle piece. -/
theorem mid_split (s t mid : String) : ∃ a b, s ++ (mid ++ t) = a ++ mid ++ b :=
  ⟨s, t, by simp [String.append_assoc]⟩

theorem isDigit_ne_dot {c : Char} (h : c.isDigit = true) : c ≠ '.' := by
  intro hc
  rw [hc] at h
  exact absurd h (by decide)

/-! ### Claim theorems -/

/-- Claim C3: for every query and knowledge-base id, if the underlying
retrieval service call raises, `retrieve_from_kb` does not propagate the
failure: it reports the error and returns an empty sequence. -/
theorem retrieve_from_kb_fail_soft (svc : KBService) (query kb_id e : String)
    (h : svc (kbRetrieveRequest query kb_id) = .error e) :
    retrieve_from_kb svc query kb_id =
      ([], ["Error retrieving from KB " ++ kb_id ++ ": " ++ e]) := by
  simp [retrieve_from_kb, h]

theorem retrieve_from_kb_fail_soft_witness :
    retrieve_from_kb (fun _ => .error "timeout") "ping" "KB1" =
      ([], ["Error retrieving from KB KB1: timeout"]) :=
  retrieve_from_kb_fail_soft (fun _ => .error "timeout") "ping" "KB1" "timeout" rfl

/-- Claim C4: for every prompt, if the LLM invocation raises,
`combine_and_generate_response` does not propagate the failure: it returns
the one fixed fallback error string. -/
theorem combine_and_generate_response_fallback (query : String)
    (vector_results graph_results : List RetrievalResult) (llm : LLMClient) (e : String)
    (h : llm (synthesis_prompt query
        (format_retrieval_results vector_results "Vector")
        (format_retrieval_results graph_results "Graph")) = .error e) :
    (combine_and_generate_response query vector_results graph_results llm).1 =
      "Error generating unified response." := by
  simp [combine_and_generate_response, h]

theorem combine_and_generate_response_fallback_witness :
    (combine_and_generate_response "ping" [] [] (fun _ => .error "overloaded")).1 =
      "Error generating unified response." :=
  combine_and_generate_response_fallback "ping" [] [] (fun _ => .error "overloaded")
    "overloaded" rfl

/-- Claim C5: for every source label, formatting an empty result sequence
returns exactly the fixed no-results sentence, which contains the label. -/
theorem format_retrieval_results_empty (source_type : String) :
    format_retrieval_results [] source_type =
      "No results found from " ++ source_type ++ " knowledge base." ∧
    (∃ pre post, format_retrieval_results [] source_type = pre ++ source_type ++ post) :=
  ⟨rfl, "No results found from ", " knowledge base.", rfl⟩

/-- Claim C10: `format_retrieval_results` is total on malformed items: a
missing content field (or missing nested text) renders as empty content
text, and a missing score renders as score 0. -/
theorem format_retrieval_results_malformed_defaults :
    (∀ r : RetrievalResult, r.content = none → resultContentText r = "") ∧
    (∀ r : RetrievalResult, ∀ c, r.content = some c → c.text = none →
      resultContentText r = "") ∧
    (∀ r : RetrievalResult, r.score = none → resultScore r = 0) ∧
    format_retrieval_results [⟨none, none⟩] "Vector" =
      "\n--- Vector Knowledge Base Results ---\n\n1. (Score: 0.000)\n\n" := by
  refine ⟨?_, ?_, ?_, by decide⟩
  · intro r h
    simp [resultContentText, h]
  · intro r c h1 h2
    simp [resultContentText, h1, h2]
  · intro r h
    simp [resultScore, h]

theorem format_retrieval_results_malformed_defaults_witness :
    resultContentText ⟨none, none⟩ = "" ∧
    resultContentText ⟨some ⟨none⟩, some (mkRat 1 2)⟩ = "" ∧
    resultScore ⟨none, none⟩ = 0 :=
  ⟨format_retrieval_results_malformed_defaults.1 ⟨none, none⟩ rfl,
   format_retrieval_results_malformed_defaults.2.1 ⟨some ⟨none⟩, some (mkRat 1 2)⟩ ⟨none⟩ rfl rfl,
   format_retrieval_results_malformed_defaults.2.2.1 ⟨none, none⟩ rfl⟩

/-- Claim C8 (counterexample): the source's retrieve operation exposes no
maxResults knob: the request it builds fixes numberOfResults to 5, so it
disagrees with the spec contract instantiated at maxResults = 3. -/
theorem retrieve_maxResults_contract_counterexample :
    kbRetrieveRequest "ping" "KB1" ≠ specContractRequest "ping" "KB1" 3 ∧
    (kbRetrieveRequest "ping" "KB1").numberOfResults = 5 := by
  refine ⟨?_, rfl⟩
  intro h
  have : (5 : Nat) = 3 := congrArg RetrieveRequest.numberOfResults h
  omega

/-- Claim C8 (amended): `retrieve_from_kb` takes no maxResults parameter;
the single request it issues always carries numberOfResults = 5, and the
operation depends on the service only through that one request. -/
theorem retrieve_request_numberOfResults_five (query kb_id : String) :
    (kbRetrieveRequest query kb_id).numberOfResults = 5 ∧
    ∀ svc svc' : KBService,
      svc (kbRetrieveRequest query kb_id) = svc' (kbRetrieveRequest query kb_id) →
      retrieve_from_kb svc query kb_id = retrieve_from_kb svc' query kb_id := by
  refine ⟨rfl, ?_⟩
  intro svc svc' h
  simp [retrieve_from_kb, h]

theorem retrieve_request_numberOfResults_five_witness :
    (kbRetrieveRequest "ping" "KB1").numberOfResults = 5 ∧
    retrieve_from_kb (fun _ => .ok ⟨none⟩) "ping" "KB1" =
      retrieve_from_kb
        (fun r => if r.numberOfResults = 5 then .ok ⟨none⟩ else .error "bad") "ping" "KB1" :=
  ⟨(retrieve_request_numberOfResults_five "ping" "KB1").1,
   (retrieve_request_numberOfResults_five "ping" "KB1").2 _ _ rfl⟩

/-- Claim C1: `hybrid_rag_query` never propagates a failure: a failing KB
service contributes empty result lists (and zero counts), and a failing LLM
yields the fixed fallback text; in every case a QueryOutcome is returned. -/
theorem hybrid_rag_query_fail_soft (svc : KBService) (llm : LLMClient) (q : String) :
    ((∀ r, ∃ e, svc r = .error e) →
      (hybrid_rag_query svc llm q).1.raw_vector_results = [] ∧
      (hybrid_rag_query svc llm q).1.raw_graph_results = [] ∧
      (hybrid_rag_query svc llm q).1.vector_results_count = 0 ∧
      (hybrid_rag_query svc llm q).1.graph_results_count = 0) ∧
    ((∀ p, ∃ e, llm p = .error e) →
      (hybrid_rag_query svc llm q).1.unified_response =
        "Error generating unified response.") := by
  constructor
  · intro hsvc
    obtain ⟨e1, h1⟩ := hsvc (kbRetrieveRequest q VECTOR_KB_ID)
    obtain ⟨e2, h2⟩ := hsvc (kbRetrieveRequest q GRAPH_KB_ID)
    simp [hybrid_rag_query, retrieve_from_kb, h1, h2]
  · intro hllm
    obtain ⟨e, he⟩ := hllm (synthesis_prompt q
      (format_retrieval_results (retrieve_from_kb svc q VECTOR_KB_ID).1 "Vector")
      (format_retrieval_results (retrieve_from_kb svc q GRAPH_KB_ID).1 "Graph"))
    simp [hybrid_rag_query, combine_and_generate_response, he]

theorem hybrid_rag_query_fail_soft_witness :
    (hybrid_rag_query (fun _ => .error "kb down") (fun _ => .error "model down")
        "ping").1.raw_vector_results = [] ∧
    (hybrid_rag_query (fun _ => .error "kb down") (fun _ => .error "model down")
        "ping").1.raw_graph_results = [] ∧
    (hybrid_rag_query (fun _ => .error "kb down") (fun _ => .error "model down")
        "ping").1.vector_results_count = 0 ∧
    (hybrid_rag_query (fun _ => .error "kb down") (fun _ => .error "model down")
        "ping").1.graph_results_count = 0 ∧
    (hybrid_rag_query (fun _ => .error "kb down") (fun _ => .error "model down")
        "ping").1.unified_response = "Error generating unified response." := by
  have h := hybrid_rag_query_fail_soft (fun _ => .error "kb down")
    (fun _ => .error "model down") "ping"
  have h1 := h.1 (fun r => ⟨"kb down", rfl⟩)
  exact ⟨h1.1, h1.2.1, h1.2.2.1, h1.2.2.2, h.2 (fun p => ⟨"model down", rfl⟩)⟩

/-- Claim C2: with both KB retrievals returning canned lists and a mocked
LLM with fixed output, `hybrid_rag_query` returns the query, both counts
equal to the list lengths, both raw lists unchanged, and the mock output. -/
theorem hybrid_rag_query_outcome_fields (svc : KBService) (llm : LLMClient)
    (q out : String) (vr gr : List RetrievalResult)
    (hv : svc (kbRetrieveRequest q VECTOR_KB_ID) = .ok ⟨some vr⟩)
    (hg : svc (kbRetrieveRequest q GRAPH_KB_ID) = .ok ⟨some gr⟩)
    (hm : ∀ p, llm p = .ok ⟨out⟩) :
    (hybrid_rag_query svc llm q).1 =
      { query := q
        vector_results_count := vr.length
        graph_results_count := gr.length
        unified_response := out
        raw_vector_results := vr
        raw_graph_results := gr } := by
  simp [hybrid_rag_query, retrieve_from_kb, combine_and_generate_response, hv, hg, hm]

theorem hybrid_rag_query_outcome_fields_witness :
    (hybrid_rag_query
      (fun r => if r.knowledgeBaseId = VECTOR_KB_ID then
          .ok ⟨some [⟨some ⟨some "Alpha"⟩, some (mkRat 1 2)⟩,
                     ⟨some ⟨some "Beta"⟩, some (mkRat 9 10000)⟩]⟩
        else .ok ⟨some []⟩)
      (fun _ => .ok ⟨"unified answer"⟩) "ping").1 =
      { query := "ping"
        vector_results_count := 2
        graph_results_count := 0
        unified_response := "unified answer"
        raw_vector_results := [⟨some ⟨some "Alpha"⟩, some (mkRat 1 2)⟩,
                               ⟨some ⟨some "Beta"⟩, some (mkRat 9 10000)⟩]
        raw_graph_results := [] } :=
  hybrid_rag_query_outcome_fields _ _ "ping" "unified answer"
    [⟨some ⟨some "Alpha"⟩, some (mkRat 1 2)⟩, ⟨some ⟨some "Beta"⟩, some (mkRat 9 10000)⟩]
    [] rfl rfl (fun _ => rfl)

/-- Claim C6: for every non-empty result sequence, the formatted text is the
source-naming header followed by the concatenated numbered entries: one
entry per input result, numbered 1..n in input order, each entry showing
that result's rendered score and content text. -/
theorem format_retrieval_results_nonempty (results : List RetrievalResult)
    (source_type : String) (h : results ≠ []) :
    format_retrieval_results results source_type =
      ("\n--- " ++ source_type ++ " Knowledge Base Results ---\n") ++
        String.join ((results.enumFrom 1).map fun p => entryString p.1 p.2) ∧
    ((results.enumFrom 1).map fun p => entryString p.1 p.2).length = results.length ∧
    (results.enumFrom 1).map Prod.fst = List.range' 1 results.length ∧
    ∀ p ∈ results.enumFrom 1, ∃ a b c, entryString p.1 p.2 =
      a ++ formatScore3 (resultScore p.2) ++ b ++ resultContentText p.2 ++ c := by
  refine ⟨?_, ?_, List.enumFrom_map_fst 1 results, ?_⟩
  · rw [format_retrieval_results, if_neg (by simpa using h)]
    exact foldl_entry_eq_join _ _ _
  · rw [List.length_map, List.enumFrom_length]
  · intro p _
    refine ⟨"\n" ++ natRepr p.1 ++ ". (Score: ", ")\n", "\n", ?_⟩
    simp [entryString, String.append_assoc]

theorem format_retrieval_results_nonempty_witness :
    format_retrieval_results [⟨some ⟨some "Alpha"⟩, some (mkRat 1 2)⟩] "Vector" =
      "\n--- Vector Knowledge Base Results ---\n\n1. (Score: 0.500)\nAlpha\n" :=
  ((format_retrieval_results_nonempty [⟨some ⟨some "Alpha"⟩, some (mkRat 1 2)⟩]
    "Vector" (by decide)).1).trans (by decide)

/-- Claim C7: every rendered score has exactly 3 digits after the decimal
point regardless of the input precision; in particular 0.5 renders "0.500". -/
theorem formatScore3_three_decimals :
    (∀ x : ℚ, ∃ pre frac : String, formatScore3 x = pre ++ "." ++ frac ∧
      frac.length = 3 ∧ (∀ c ∈ frac.data, c.isDigit = true) ∧
      (∀ c ∈ pre.data, c ≠ '.')) ∧
    formatScore3 (1/2) = "0.500" := by
  constructor
  · intro x
    refine ⟨(if scaled1000 x < 0 then "-" else "") ++
        natRepr ((scaled1000 x).natAbs / 1000),
      String.mk [Nat.digitChar ((scaled1000 x).natAbs % 1000 / 100),
        Nat.digitChar ((scaled1000 x).natAbs % 1000 / 10 % 10),
        Nat.digitChar ((scaled1000 x).natAbs % 1000 % 10)], rfl, rfl, ?_, ?_⟩
    · intro c hc
      simp only [List.mem_cons, List.not_mem_nil, or_false] at hc
      rcases hc with h | h | h <;> rw [h]
      · exact isDigit_digitChar (by omega)
      · exact isDigit_digitChar (by omega)
      · exact isDigit_digitChar (by omega)
    · intro c hc
      rw [String.data_append] at hc
      rcases List.mem_append.mp hc with h1 | h2
      · by_cases hneg : scaled1000 x < 0
        · rw [if_pos hneg] at h1
          have hd : ("-" : String).data = ['-'] := rfl
          rw [hd] at h1
          simp only [List.mem_singleton] at h1
          rw [h1]
          decide
        · rw [if_neg hneg] at h1
          simp only [show ("" : String).data = [] from rfl, List.not_mem_nil] at h1
      · exact isDigit_ne_dot (natDecimal_digits _ c h2)
  · have h : (1/2 : ℚ) = mkRat 1 2 := by norm_num [Rat.mkRat_eq_div]
    rw [h]
    decide

/-- Claim C9: for every query and pair of formatted blocks, the synthesis
prompt contains the query, the vector block, the graph block, and the fixed
directives to synthesize both sources, reconcile complementary or
contradictory information, attribute claims to their source KB, and stay
concise. -/
theorem synthesis_prompt_directives (query vector_context graph_context : String) :
    (∃ a b, synthesis_prompt query vector_context graph_context = a ++ query ++ b) ∧
    (∃ a b, synthesis_prompt query vector_context graph_context =
      a ++ vector_context ++ b) ∧
    (∃ a b, synthesis_prompt query vector_context graph_context =
      a ++ graph_context ++ b) ∧
    (∃ a b, synthesis_prompt query vector_context graph_context =
      a ++ "- Synthesize the information from both knowledge bases" ++ b) ∧
    (∃ a b, synthesis_prompt query vector_context graph_context =
      a ++ "- If there are complementary details, integrate them seamlessly" ++ b) ∧
    (∃ a b, synthesis_prompt query vector_context graph_context =
      a ++ "- If there are contradictions, acknowledge them and provide the most accurate information" ++ b) ∧
    (∃ a b, synthesis_prompt query vector_context graph_context =
      a ++ "- Cite which source (Vector KB or Graph KB) specific information comes from when relevant" ++ b) ∧
    (∃ a b, synthesis_prompt query vector_context graph_context =
      a ++ "- Be concise but thorough" ++ b) := by
  refine ⟨?_, ?_, ?_, ?_, ?_, ?_, ?_, ?_⟩
  · have base : synthesis_prompt query vector_context graph_context =
        promptHead ++ (query ++ ("\n\n" ++ (vector_context ++ ("\n\n" ++
          (graph_context ++ ("\n\n" ++ promptInstructions)))))) := by
      simp [synthesis_prompt, String.append_assoc]
    rw [base]
    exact mid_split _ _ _
  · have base : synthesis_prompt query vector_context graph_context =
        (promptHead ++ query ++ "\n\n") ++ (vector_context ++ ("\n\n" ++
          (graph_context ++ ("\n\n" ++ promptInstructions)))) := by
      simp [synthesis_prompt, String.append_assoc]
    rw [base]
    exact mid_split _ _ _
  · have base : synthesis_prompt query vector_context graph_context =
        (promptHead ++ query ++ "\n\n" ++ vector_context ++ "\n\n") ++
          (graph_context ++ ("\n\n" ++ promptInstructions)) := by
      simp [synthesis_prompt, String.append_assoc]
    rw [base]
    exact mid_split _ _ _
  · have hs : promptInstructions = "Instructions:\n" ++
        ("- Synthesize the information from both knowledge bases" ++
         "\n- Provide a comprehensive, coherent answer that combines the best insights from both sources\n- If there are complementary details, integrate them seamlessly\n- If there are contradictions, acknowledge them and provide the most accurate information\n- Cite which source (Vector KB or Graph KB) specific information comes from when relevant\n- Be concise but thorough\n\nProvide your unified answer below:") := by
      decide
    have base : synthesis_prompt query vector_context graph_context =
        (promptHead ++ query ++ "\n\n" ++ vector_context ++ "\n\n" ++ graph_context ++
          "\n\n" ++ "Instructions:\n") ++
          ("- Synthesize the information from both knowledge bases" ++
           "\n- Provide a comprehensive, coherent answer that combines the best insights from both sources\n- If there are complementary details, integrate them seamlessly\n- If there are contradictions, acknowledge them and provide the most accurate information\n- Cite which source (Vector KB or Graph KB) specific information comes from when relevant\n- Be concise but thorough\n\nProvide your unified answer below:") := by
      simp [synthesis_prompt, hs, String.append_assoc]
    rw [base]
    exact mid_split _ _ _
  · have hs : promptInstructions =
        "Instructions:\n- Synthesize the information from both knowledge bases\n- Provide a comprehensive, coherent answer that combines the best insights from both sources\n" ++
        ("- If there are complementary details, integrate them seamlessly" ++
         "\n- If there are contradictions, acknowledge them and provide the most accurate information\n- Cite which source (Vector KB or Graph KB) specific information comes from when relevant\n- Be concise but thorough\n\nProvide your unified answer below:") := by
      decide
    have base : synthesis_prompt query vector_context graph_context =
        (promptHead ++ query ++ "\n\n" ++ vector_context ++ "\n\n" ++ graph_context ++
          "\n\n" ++ "Instructions:\n- Synthesize the information from both knowledge bases\n- Provide a comprehensive, coherent answer that combines the best insights from both sources\n") ++
          ("- If there are complementary details, integrate them seamlessly" ++
           "\n- If there are contradictions, acknowledge them and provide the most accurate information\n- Cite which source (Vector KB or Graph KB) specific information comes from when relevant\n- Be concise but thorough\n\nProvide your unified answer below:") := by
      simp [synthesis_prompt, hs, String.append_assoc]
    rw [base]
    exact mid_split _ _ _
  · have hs : promptInstructions =
        "Instructions:\n- Synthesize the information from both knowledge bases\n- Provide a comprehensive, coherent answer that combines the best insights from both sources\n- If there are complementary details, integrate them seamlessly\n" ++
        ("- If there are contradictions, acknowledge them and provide the most accurate information" ++
         "\n- Cite which source (Vector KB or Graph KB) specific information comes from when relevant\n- Be concise but thorough\n\nProvide your unified answer below:") := by
      decide
    have base : synthesis_prompt query vector_context graph_context =
        (promptHead ++ query ++ "\n\n" ++ vector_context ++ "\n\n" ++ graph_context ++
          "\n\n" ++ "Instructions:\n- Synthesize the information from both knowledge bases\n- Provide a comprehensive, coherent answer that combines the best insights from both sources\n- If there are complementary details, integrate them seamlessly\n") ++
          ("- If there are contradictions, acknowledge them and provide the most accurate information" ++
           "\n- Cite which source (Vector KB or Graph KB) specific information comes from when relevant\n- Be concise but thorough\n\nProvide your unified answer below:") := by
      simp [synthesis_prompt, hs, String.append_assoc]
    rw [base]
    exact mid_split _ _ _
  · have hs : promptInstructions =
        "Instructions:\n- Synthesize the information from both knowledge bases\n- Provide a comprehensive, coherent answer that combines the best insights from both sources\n- If there are complementary details, integrate them seamlessly\n- If there are contradictions, acknowledge them and provide the most accurate information\n" ++
        ("- Cite which source (Vector KB or Graph KB) specific information comes from when relevant" ++
         "\n- Be concise but thorough\n\nProvide your unified answer below:") := by
      decide
    have base : synthesis_prompt query vector_context graph_context =
        (promptHead ++ query ++ "\n\n" ++ vector_context ++ "\n\n" ++ graph_context ++
          "\n\n" ++ "Instructions:\n- Synthesize the information from both knowledge bases\n- Provide a comprehensive, coherent answer that combines the best insights from both sources\n- If there are complementary details, integrate them seamlessly\n- If there are contradictions, acknowledge them and provide the most accurate information\n") ++
          ("- Cite which source (Vector KB or Graph KB) specific information comes from when relevant" ++
           "\n- Be concise but thorough\n\nProvide your unified answer below:") := by
      simp [synthesis_prompt, hs, String.append_assoc]
    rw [base]
    exact mid_split _ _ _
  · have hs : promptInstructions =
        "Instructions:\n- Synthesize the information from both knowledge bases\n- Provide a comprehensive, coherent answer that combines the best insights from both sources\n- If there are complementary details, integrate them seamlessly\n- If there are contradictions, acknowledge them and provide the most accurate information\n- Cite which source (Vector KB or Graph KB) specific information comes from when relevant\n" ++
        ("- Be concise but thorough" ++ "\n\nProvide your unified answer below:") := by
      decide
    have base : synthesis_prompt query vector_context graph_context =
        (promptHead ++ query ++ "\n\n" ++ vector_context ++ "\n\n" ++ graph_context ++
          "\n\n" ++ "Instructions:\n- Synthesize the information from both knowledge bases\n- Provide a comprehensive, coherent answer that combines the best insights from both sources\n- If there are complementary details, integrate them seamlessly\n- If there are contradictions, acknowledge them and provide the most accurate information\n- Cite which source (Vector KB or Graph KB) specific information comes from when relevant\n") ++
          ("- Be concise but thorough" ++ "\n\nProvide your unified answer below:") := by
      simp [synthesis_prompt, hs, String.append_assoc]
    rw [base]
    exact mid_split _ _ _

theorem formatScore3_three_decimals_witness :
    ∃ pre frac : String, formatScore3 (mkRat 1 2) = pre ++ "." ++ frac ∧
      frac.length = 3 ∧ (∀ c ∈ frac.data, c.isDigit = true) ∧
      (∀ c ∈ pre.data, c ≠ '.') :=
  formatScore3_three_decimals.1 (mkRat 1 2)

end HybridRag
